import Mathlib

/-!
Shallow embedding of the PersonDetector sensing/scheduling core.

The model follows the source files of the repository:
* `analyzeImageForPerson` (the Gemini analysis client): classification of
  remote outcomes into results or a thrown `QUOTA_EXCEEDED` error.
* the `App` component (scheduler): `addToHistory`, `handleImageCapture`,
  `handleNoMotion`, `toggleSystem`.
* `WebcamCapture`: `checkForMotion`, `processFrame`, `startCamera`,
  `triggerManualCapture`.

React `useState` setters are modelled as functional updates on an explicit
state record.  A crucial faithfulness point: inside one invocation of
`handleImageCapture` the variable `currentInterval` is the value captured by
the `useCallback` closure at invocation time; `setCurrentInterval` does not
change it.  The model threads that captured value (`cl`) explicitly.
-/

namespace PersonDetector

/-- The `DetectionStatus` enum of `types.ts`. -/
inductive DetectionStatus where
  | personDetected
  | noPerson
  | staticScene
  | cooldown
  | sensorError
deriving DecidableEq, Repr

/-- An `AnalysisResult` record: status, message, optional description,
optional confidence (a JSON number, modelled as a rational), timestamp. -/
structure AnalysisResult where
  status : DetectionStatus
  message : String
  description : Option String
  confidence : Option ℚ
  timestamp : ℕ
deriving DecidableEq, Repr

/-- Predicate startsWithChars: the char list `p` is an initial segment of `s`. -/
def startsWithChars : List Char → List Char → Bool
  | [], _ => true
  | _ :: _, [] => false
  | p :: ps, c :: cs => p == c && startsWithChars ps cs

/-- Predicate hasSub: the char list `pat` occurs contiguously inside `s`.
Models JavaScript `String.prototype.includes`. -/
def hasSub (pat : List Char) : List Char → Bool
  | [] => startsWithChars pat []
  | c :: cs => startsWithChars pat (c :: cs) || hasSub pat cs

/-- ASCII lowercasing of one character, as `toLowerCase` acts on the ASCII
range relevant to the `429`/`quota` patterns. -/
def lowerChar (c : Char) : Char :=
  if 65 ≤ c.toNat ∧ c.toNat ≤ 90 then Char.ofNat (c.toNat + 32) else c

/-- Models `errorMessage.toLowerCase().includes("429") || ...includes("quota")`,
the quota classification test in the client's catch block. -/
def quotaLike (msg : String) : Bool :=
  let low := msg.toList.map lowerChar
  hasSub "429".toList low || hasSub "quota".toList low

/-- The possible outcomes of the remote `generateContent` call as seen by
`analyzeImageForPerson`'s try block: a response whose text parsed into the
three schema fields, an empty response (`response.text` falsy), or a thrown
failure (network error, malformed-JSON parse error, ...) with its message. -/
inductive RemoteOutcome where
  | parsed (personDetected : Bool) (confidence : ℚ) (description : String)
  | emptyResponse
  | thrown (msg : String)
deriving DecidableEq, Repr

/-- The catch block of `analyzeImageForPerson`: a message containing
`429`/`quota` (case-insensitively) rethrows `QUOTA_EXCEEDED`; anything else
becomes an ordinary result with status ERROR. -/
def geminiCatch (now : ℕ) (msg : String) : Except String AnalysisResult :=
  if quotaLike msg then
    Except.error "QUOTA_EXCEEDED"
  else
    Except.ok
      { status := DetectionStatus.sensorError
        message := "FALHA NO SENSOR"
        description := some "Erro técnico na comunicação com a IA."
        confidence := none
        timestamp := now }

/-- Client function `analyzeImageForPerson`: on a parsed response classify reliability
(`result.personDetected && result.confidence > 45`); an empty response
throws `Resposta vazia da IA` into the local catch; any thrown failure is
classified by the catch block. -/
def analyzeImageForPerson (now : ℕ) : RemoteOutcome → Except String AnalysisResult
  | RemoteOutcome.parsed pd conf desc =>
      let isReliable := pd && decide (conf > 45)
      Except.ok
        { status := if isReliable then DetectionStatus.personDetected
                    else DetectionStatus.noPerson
          message := if isReliable then "ÁREA NÃO SEGURA - INVASÃO"
                     else "ÁREA SEGURA - PERÍMETRO LIMPO"
          description := some desc
          confidence := some conf
          timestamp := now }
  | RemoteOutcome.emptyResponse => geminiCatch now "Resposta vazia da IA"
  | RemoteOutcome.thrown msg => geminiCatch now msg

/-- Constant `DEFAULT_INTERVAL` of the App component. -/
def DEFAULT_INTERVAL : ℕ := 30000

/-- The `App` component state relevant to the scheduler: `isActive`,
`isAnalyzing` (the busy flag), `lastResult`, `history`, `currentInterval`,
and `nextScanTimeRef.current`. -/
structure AppState where
  isActive : Bool
  isAnalyzing : Bool
  lastResult : Option AnalysisResult
  history : List AnalysisResult
  currentInterval : ℕ
  nextScanTime : ℕ
deriving DecidableEq, Repr

/-- Function `addToHistory`: `setHistory(prev => [result, ...prev].slice(0, 5))`. -/
def addToHistory (result : AnalysisResult) (prev : List AnalysisResult) :
    List AnalysisResult :=
  (result :: prev).take 5

/-- The entry guard of `handleImageCapture`: `if (isAnalyzing) return;` then
`setIsAnalyzing(true)`.  Returns `none` when the invocation is dropped, and
otherwise the closure-captured `currentInterval` together with the state
after the busy flag is raised. -/
def beginCapture (s : AppState) : Option (ℕ × AppState) :=
  if s.isAnalyzing then none
  else some (s.currentInterval, { s with isAnalyzing := true })

/-- The `finally` block of `handleImageCapture`: `setIsAnalyzing(false);
nextScanTimeRef.current = Date.now() + currentInterval`, where
`currentInterval` is the closure-captured value `cl`. -/
def finallyBlock (cl now : ℕ) (s : AppState) : AppState :=
  { s with isAnalyzing := false, nextScanTime := now + cl }

/-- The catch-branch Cooldown event of `handleImageCapture` for a
quota-exceeded failure. -/
def cooldownEvent (now : ℕ) : AnalysisResult :=
  { status := DetectionStatus.cooldown
    message := "Ajustando Frequência"
    description := some "Economizando recursos da nuvem."
    confidence := none
    timestamp := now }

/-- The catch-branch ERROR event of `handleImageCapture` for a failure that
is not quota-exceeded; the description is `error.message` when truthy, the
fallback text otherwise. -/
def genericErrorEvent (now : ℕ) (msg : String) : AnalysisResult :=
  { status := DetectionStatus.sensorError
    message := "Erro no Sensor"
    description := some (if msg = "" then "Falha na análise da imagem." else msg)
    confidence := none
    timestamp := now }

/-- The body of `handleImageCapture` after the busy flag is raised, applied
when the awaited client call resolves.  `cl` is the closure-captured
`currentInterval`.  Returns the new state and the number of
`playAlarmSound` invocations. -/
def handleCompletion (cl now : ℕ) (outcome : Except String AnalysisResult)
    (s : AppState) : AppState × ℕ :=
  match outcome with
  | Except.ok result =>
      let s₁ := { s with lastResult := some result
                         history := addToHistory result s.history
                         currentInterval := DEFAULT_INTERVAL }
      let alarms := if result.status = DetectionStatus.personDetected then 1 else 0
      (finallyBlock cl now s₁, alarms)
  | Except.error msg =>
      let errorResult :=
        if msg = "QUOTA_EXCEEDED" then cooldownEvent now
        else genericErrorEvent now msg
      let s₁ :=
        if msg = "QUOTA_EXCEEDED" then
          { s with currentInterval := min (cl * 2) 300000 }
        else s
      let s₂ := { s₁ with lastResult := some errorResult
                          history := addToHistory errorResult s₁.history }
      (finallyBlock cl now s₂, 0)

/-- Function `handleImageCapture` run to completion with no interleaving: the guard,
then the awaited outcome applied.  The `Bool` records whether the
AnalysisClient was actually invoked. -/
def handleImageCapture (now : ℕ) (outcome : Except String AnalysisResult)
    (s : AppState) : AppState × ℕ × Bool :=
  match beginCapture s with
  | none => (s, 0, false)
  | some (cl, s₁) =>
      let (s₂, alarms) := handleCompletion cl now outcome s₁
      (s₂, alarms, true)

/-- One full serialized analysis cycle: the client classifies the remote
outcome, and the scheduler consumes the result. -/
def runCycle (now : ℕ) (oc : RemoteOutcome) (s : AppState) : AppState × ℕ × Bool :=
  handleImageCapture now (analyzeImageForPerson now oc) s

/-- Function `handleNoMotion`: emit a STATIC_SCENE event and re-arm the timer. -/
def handleNoMotion (now : ℕ) (s : AppState) : AppState :=
  let result : AnalysisResult :=
    { status := DetectionStatus.staticScene
      message := "Perímetro Estático"
      description := some "Sem alterações na cena."
      confidence := none
      timestamp := now }
  { s with lastResult := some result
           history := addToHistory result s.history
           nextScanTime := now + s.currentInterval }

/-- Function `toggleSystem`: deactivation clears `lastResult` and `history` and
resets `currentInterval` to the default; activation re-arms the timer.
Note that it does not touch `isAnalyzing`. -/
def toggleSystem (now : ℕ) (s : AppState) : AppState :=
  let newState := !s.isActive
  if newState = false then
    { s with isActive := false
             lastResult := none
             history := []
             currentInterval := DEFAULT_INTERVAL }
  else
    { s with isActive := true, nextScanTime := now + DEFAULT_INTERVAL }

/-- Function `triggerManualCapture`: capture the current frame and, if one was
produced, hand it to `onCapture` (the scheduler's `handleImageCapture`).
`frameReady` models `captureCurrentFrame()` returning non-null. -/
def triggerManualCapture (frameReady : Bool) (now : ℕ)
    (outcome : Except String AnalysisResult) (s : AppState) : AppState × ℕ × Bool :=
  if frameReady then handleImageCapture now outcome s else (s, 0, false)

/-- One RGBA pixel of the 50×50 downsampled grid. -/
structure RGBA where
  r : ℕ
  g : ℕ
  b : ℕ
  a : ℕ
deriving DecidableEq, Repr

/-- A downsampled motion sample: the pixel list of `getImageData`. -/
abbrev Sample := List RGBA

/-- Sum of the absolute per-channel (R, G, B) differences of one pixel
against the previous sample at the same index. -/
def pixelDiff (c p : RGBA) : ℕ :=
  ((c.r : ℤ) - (p.r : ℤ)).natAbs + ((c.g : ℤ) - (p.g : ℤ)).natAbs +
    ((c.b : ℤ) - (p.b : ℤ)).natAbs

/-- The changed-pixel count of the diff loop of `checkForMotion`: a pixel
counts when `pixelDiff > 30`.  The loop runs over the indices of the
current sample; a missing previous entry yields NaN comparisons in
JavaScript and is never counted, hence the second base case. -/
def changedCount : Sample → Sample → ℕ
  | [], _ => 0
  | _ :: _, [] => 0
  | c :: cs, p :: ps => (if pixelDiff c p > 30 then 1 else 0) + changedCount cs ps

/-- The mutable state of `WebcamCapture` used by motion detection:
`prevFrameDataRef.current` and the `motionLevel` display state. -/
structure MotionState where
  prevFrame : Option Sample
  motionLevel : ℚ
deriving DecidableEq, Repr

/-- Function `checkForMotion`: with no previous sample, store the current one and
report motion without computing a diff; otherwise count changed pixels over
the 50×50 grid, set `motionLevel = changedPixels / totalPixels * 100`, store
the current sample, and report motion iff the level exceeds
`motionSensitivity / 10`. -/
def checkForMotion (motionSensitivity : ℚ) (cur : Sample) (st : MotionState) :
    Bool × MotionState :=
  match st.prevFrame with
  | none => (true, { st with prevFrame := some cur })
  | some prev =>
      let totalPixels : ℚ := 50 * 50
      let changePercentage : ℚ := (changedCount cur prev : ℚ) / totalPixels * 100
      let threshold : ℚ := motionSensitivity / 10
      (decide (changePercentage > threshold),
       { prevFrame := some cur, motionLevel := changePercentage })

/-- Function `processFrame`: skip entirely when inactive or when the video has zero
dimensions; otherwise run the motion check and either capture
(`some true`, leading to `onCapture`) or report no motion (`some false`,
leading to `onNoMotion`). -/
def processFrame (isActive : Bool) (videoWidth videoHeight : ℕ)
    (motionSensitivity : ℚ) (cur : Sample) (st : MotionState) :
    Option Bool × MotionState :=
  if isActive = false then (none, st)
  else if videoWidth = 0 ∨ videoHeight = 0 then (none, st)
  else
    let (hasMotion, st') := checkForMotion motionSensitivity cur st
    (some hasMotion, st')

/-- The part of `startCamera` visible to the motion detector: on a camera
(re)start the stored previous sample is cleared. -/
def startCamera (st : MotionState) : MotionState :=
  { st with prevFrame := none }

/-- The pure backoff function embedded in the scheduler's completion
handling: doubling clamped at 300000 on quota failure. -/
def backoffNext (current : ℕ) : ℕ :=
  min (current * 2) 300000

/-- The initial `App` state: inactive, not analyzing, empty history,
default interval. -/
def initialState : AppState :=
  { isActive := false
    isAnalyzing := false
    lastResult := none
    history := []
    currentInterval := DEFAULT_INTERVAL
    nextScanTime := DEFAULT_INTERVAL }

/-- An armed state: the system is active with no call in flight. -/
def armedState : AppState :=
  { initialState with isActive := true }

/-- An armed state with an AnalysisClient call in flight. -/
def busyState : AppState :=
  { armedState with isAnalyzing := true }

/-- An armed state whose interval has been backed off once to 60000. -/
def backedOffState : AppState :=
  { armedState with currentInterval := 60000 }

/-- A small concrete motion sample used to instantiate general theorems. -/
def samplePrev : Sample :=
  [⟨10, 20, 30, 255⟩, ⟨50, 60, 70, 255⟩]

/-- Unfolding of a push: prepend and keep at most four older events. -/
theorem addToHistory_eq (r : AnalysisResult) (h : List AnalysisResult) :
    addToHistory r h = r :: h.take 4 := rfl

/-- Length bound of a single push. -/
theorem addToHistory_length_le (r : AnalysisResult) (h : List AnalysisResult) :
    (addToHistory r h).length ≤ 5 := by
  simp [addToHistory, List.length_take]

/-- Completion always ends through the finally block: the busy flag is
cleared and the timer is re-armed from the closure-captured interval. -/
theorem handleCompletion_finally (cl now : ℕ) (outcome : Except String AnalysisResult)
    (s : AppState) :
    ((handleCompletion cl now outcome s).1).isAnalyzing = false ∧
    ((handleCompletion cl now outcome s).1).nextScanTime = now + cl := by
  cases outcome <;> simp [handleCompletion, finallyBlock]

/-- Completion always pushes exactly one event through `addToHistory`. -/
theorem handleCompletion_history (cl now : ℕ) (outcome : Except String AnalysisResult)
    (s : AppState) :
    ∃ e, ((handleCompletion cl now outcome s).1).history = addToHistory e s.history := by
  cases outcome with
  | ok r => exact ⟨r, by simp [handleCompletion, finallyBlock]⟩
  | error msg =>
      by_cases hq : msg = "QUOTA_EXCEEDED"
      · exact ⟨cooldownEvent now, by simp [handleCompletion, finallyBlock, hq]⟩
      · exact ⟨genericErrorEvent now msg, by simp [handleCompletion, finallyBlock, hq]⟩

/-- Completion always stores the cycle's event as the last result. -/
theorem handleCompletion_lastResult (cl now : ℕ) (outcome : Except String AnalysisResult)
    (s : AppState) :
    ∃ e, ((handleCompletion cl now outcome s).1).lastResult = some e := by
  cases outcome with
  | ok r => exact ⟨r, by simp [handleCompletion, finallyBlock]⟩
  | error msg =>
      by_cases hq : msg = "QUOTA_EXCEEDED"
      · exact ⟨cooldownEvent now, by simp [handleCompletion, finallyBlock, hq]⟩
      · exact ⟨genericErrorEvent now msg, by simp [handleCompletion, finallyBlock, hq]⟩

/-- A pixel compared against itself has zero channel difference. -/
theorem pixelDiff_self (c : RGBA) : pixelDiff c c = 0 := by
  simp [pixelDiff]

/-- Bit-identical samples have no changed pixels. -/
theorem changedCount_self (cs : Sample) : changedCount cs cs = 0 := by
  induction cs with
  | nil => rfl
  | cons c cs ih => simp [changedCount, pixelDiff_self, ih]

/-- Claim C1 (code bug witnessed): after deactivation while a call is in
flight, the history is empty and the last result cleared, yet when the
outstanding call resolves — for every possible outcome — the completion
handler still appends one event and sets a last result, contradicting the
requirement that the late result be discarded. -/
theorem c1_late_result_applied (outcome : Except String AnalysisResult) (now now' cl : ℕ) :
    (toggleSystem now busyState).isActive = false ∧
    (toggleSystem now busyState).history = [] ∧
    (toggleSystem now busyState).lastResult = none ∧
    ((handleCompletion cl now' outcome (toggleSystem now busyState)).1).history.length
      = 1 ∧
    ((handleCompletion cl now' outcome (toggleSystem now busyState)).1).lastResult.isSome
      = true := by
  refine ⟨rfl, rfl, rfl, ?_, ?_⟩
  · obtain ⟨e, he⟩ := handleCompletion_history cl now' outcome (toggleSystem now busyState)
    rw [he]
    rfl
  · obtain ⟨e, he⟩ := handleCompletion_lastResult cl now' outcome (toggleSystem now busyState)
    rw [he]
    rfl

/-- Claim C2, counterexample to the claim as stated: from a backed-off
interval of 60000, a generic remote-call failure yields an Error event but
resets `currentInterval` to 30000 — it is not left unchanged. -/
theorem c2_counterexample :
    ((runCycle 100 (RemoteOutcome.thrown "network down") backedOffState).1).currentInterval
        = 30000 ∧
    ((runCycle 100 (RemoteOutcome.thrown "network down") backedOffState).1).currentInterval
        ≠ backedOffState.currentInterval ∧
    ((runCycle 100 (RemoteOutcome.thrown "network down") backedOffState).1).history.head?.map
        (fun e => e.status) = some DetectionStatus.sensorError := by
  decide

/-- Claim C2 as amended: a completed analysis with a generic (non-quota)
failure emits an Error event, displays it as the last result, and resets
`currentInterval` to the base interval — the same reset as a success,
because the client converts the failure into an ordinary ERROR result that
the scheduler processes through its success path. -/
theorem c2_generic_error_resets_interval (now : ℕ) (s : AppState) (msg : String)
    (hb : s.isAnalyzing = false) (hq : quotaLike msg = false) :
    ∃ e, ((runCycle now (RemoteOutcome.thrown msg) s).1).history.head? = some e ∧
      e.status = DetectionStatus.sensorError ∧
      ((runCycle now (RemoteOutcome.thrown msg) s).1).lastResult = some e ∧
      ((runCycle now (RemoteOutcome.thrown msg) s).1).currentInterval = DEFAULT_INTERVAL := by
  simp [runCycle, analyzeImageForPerson, geminiCatch, hq, handleImageCapture,
    beginCapture, hb, handleCompletion, finallyBlock, addToHistory_eq, genericErrorEvent]

/-- Witness for C2's amended theorem at a concrete generic failure. -/
theorem c2_witness :
    ∃ e, ((runCycle 7 (RemoteOutcome.thrown "network down") armedState).1).history.head?
          = some e ∧
      e.status = DetectionStatus.sensorError ∧
      ((runCycle 7 (RemoteOutcome.thrown "network down") armedState).1).lastResult = some e ∧
      ((runCycle 7 (RemoteOutcome.thrown "network down") armedState).1).currentInterval
          = DEFAULT_INTERVAL :=
  c2_generic_error_resets_interval 7 armedState "network down" (by decide) (by decide)

/-- Claim C3, counterexample to the claim as stated: a quota failure from
base interval 30000 at time 1000 leaves `currentInterval = 60000` but sets
`nextScanTime = 31000`, not `now + 60000` — the re-arm uses the pre-cycle
interval, not the interval resulting from the cycle's outcome. -/
theorem c3_counterexample :
    ((runCycle 1000 (RemoteOutcome.thrown "429") armedState).1).currentInterval = 60000 ∧
    ((runCycle 1000 (RemoteOutcome.thrown "429") armedState).1).nextScanTime = 31000 ∧
    ((runCycle 1000 (RemoteOutcome.thrown "429") armedState).1).nextScanTime
      ≠ 1000 + ((runCycle 1000 (RemoteOutcome.thrown "429") armedState).1).currentInterval := by
  decide

/-- Claim C3 as amended: after every completed analysis cycle the busy flag
is cleared and `nextScanTime = now + i` where `i` is the interval value
captured at the start of the cycle (the pre-outcome value held by the
handler's closure), for every outcome. -/
theorem c3_finally_uses_precycle_interval (now : ℕ) (oc : RemoteOutcome) (s : AppState)
    (hb : s.isAnalyzing = false) :
    ((runCycle now oc s).1).isAnalyzing = false ∧
    ((runCycle now oc s).1).nextScanTime = now + s.currentInterval := by
  unfold runCycle handleImageCapture
  simp [beginCapture, hb]
  exact handleCompletion_finally s.currentInterval now _ _

/-- Witness for C3's amended theorem at a concrete quota failure. -/
theorem c3_witness :
    ((runCycle 1000 (RemoteOutcome.thrown "429") armedState).1).isAnalyzing = false ∧
    ((runCycle 1000 (RemoteOutcome.thrown "429") armedState).1).nextScanTime
      = 1000 + armedState.currentInterval :=
  c3_finally_uses_precycle_interval 1000 (RemoteOutcome.thrown "429") armedState (by decide)

/-- Claim C4: the backoff update is `min(current * 2, 300000)` on a quota
failure (with a Cooldown event) and the base interval on a successful
analysis; from base 30000 four consecutive quota failures give 60000,
120000, 240000, 300000, each with a Cooldown event, and one success then
resets the interval to 30000. -/
theorem c4_backoff :
    (∀ now s msg, s.isAnalyzing = false → quotaLike msg = true →
      ((runCycle now (RemoteOutcome.thrown msg) s).1).currentInterval
          = backoffNext s.currentInterval ∧
      ∃ e, ((runCycle now (RemoteOutcome.thrown msg) s).1).history.head? = some e ∧
        e.status = DetectionStatus.cooldown) ∧
    (∀ now s pd conf desc, s.isAnalyzing = false →
      ((runCycle now (RemoteOutcome.parsed pd conf desc) s).1).currentInterval
          = DEFAULT_INTERVAL) ∧
    (let t1 := (runCycle 1 (RemoteOutcome.thrown "429") armedState).1
     let t2 := (runCycle 2 (RemoteOutcome.thrown "429") t1).1
     let t3 := (runCycle 3 (RemoteOutcome.thrown "429") t2).1
     let t4 := (runCycle 4 (RemoteOutcome.thrown "429") t3).1
     t1.currentInterval = 60000 ∧ t2.currentInterval = 120000 ∧
     t3.currentInterval = 240000 ∧ t4.currentInterval = 300000 ∧
     t1.history.head?.map (fun e => e.status) = some DetectionStatus.cooldown ∧
     t2.history.head?.map (fun e => e.status) = some DetectionStatus.cooldown ∧
     t3.history.head?.map (fun e => e.status) = some DetectionStatus.cooldown ∧
     t4.history.head?.map (fun e => e.status) = some DetectionStatus.cooldown ∧
     ((runCycle 5 (RemoteOutcome.parsed true 90 "intruder") t4).1).currentInterval
       = 30000) := by
  refine ⟨?_, ?_, by decide⟩
  · intro now s msg hb hq
    simp [runCycle, analyzeImageForPerson, geminiCatch, hq, handleImageCapture,
      beginCapture, hb, handleCompletion, finallyBlock, backoffNext, addToHistory_eq,
      cooldownEvent]
  · intro now s pd conf desc hb
    simp [runCycle, analyzeImageForPerson, handleImageCapture,
      beginCapture, hb, handleCompletion, finallyBlock]

/-- Witness for C4 at a concrete quota failure and a concrete success. -/
theorem c4_witness :
    ((runCycle 0 (RemoteOutcome.thrown "http 429") armedState).1).currentInterval
        = backoffNext armedState.currentInterval ∧
    ((runCycle 0 (RemoteOutcome.parsed true 90 "p") armedState).1).currentInterval
        = DEFAULT_INTERVAL :=
  ⟨(c4_backoff.1 0 armedState "http 429" (by decide) (by decide)).1,
   c4_backoff.2.1 0 armedState true 90 "p" (by decide)⟩

/-- Claim C5: the history always holds at most five events, a push prepends
the new event, after six pushes from any starting log exactly the five most
recent events remain in newest-first order, and every mutation path of the
scheduler (analysis cycle, no-motion event, toggle) preserves the bound. -/
theorem c5_history_bounded_newest_first :
    (∀ r h, (addToHistory r h).length ≤ 5 ∧ (addToHistory r h).head? = some r) ∧
    (∀ h e1 e2 e3 e4 e5 e6,
      addToHistory e6 (addToHistory e5 (addToHistory e4 (addToHistory e3
        (addToHistory e2 (addToHistory e1 h))))) = [e6, e5, e4, e3, e2]) ∧
    (∀ now oc s, s.history.length ≤ 5 → ((runCycle now oc s).1).history.length ≤ 5) ∧
    (∀ now s, (handleNoMotion now s).history.length ≤ 5) ∧
    (∀ now s, s.history.length ≤ 5 → (toggleSystem now s).history.length ≤ 5) := by
  refine ⟨?_, ?_, ?_, ?_, ?_⟩
  · intro r h
    exact ⟨addToHistory_length_le r h, by simp [addToHistory_eq]⟩
  · intro h e1 e2 e3 e4 e5 e6
    rfl
  · intro now oc s hl
    unfold runCycle handleImageCapture
    by_cases hb : s.isAnalyzing
    · simp [beginCapture, hb]
      exact hl
    · simp [beginCapture, hb]
      obtain ⟨e, he⟩ := handleCompletion_history s.currentInterval now
        (analyzeImageForPerson now oc) { s with isAnalyzing := true }
      simp at he
      rw [he]
      exact addToHistory_length_le _ _
  · intro now s
    simp [handleNoMotion]
    exact addToHistory_length_le _ _
  · intro now s hl
    by_cases hA : s.isActive
    · simp [toggleSystem, hA]
    · simp [toggleSystem, hA]
      exact hl

/-- Witness for C5's conditional conjuncts at concrete states. -/
theorem c5_witness :
    ((runCycle 0 (RemoteOutcome.thrown "429") armedState).1).history.length ≤ 5 ∧
    (toggleSystem 0 armedState).history.length ≤ 5 :=
  ⟨c5_history_bounded_newest_first.2.2.1 0 (RemoteOutcome.thrown "429") armedState
     (by decide),
   c5_history_bounded_newest_first.2.2.2.2 0 armedState (by decide)⟩

/-- Claim C6: with a previous sample present, the changed-pixel count is
the number of grid coordinates whose summed absolute R, G, B differences
exceed 30; the reported motion level equals `changed / 2500 * 100`; motion
is reported iff that level exceeds `sensitivity / 10`; and two bit-identical
consecutive frames yield no motion and level 0 for any nonnegative
sensitivity. -/
theorem c6_motion_formula :
    (∀ cs ps : Sample, changedCount cs ps
        = ((cs.zip ps).filter (fun cp => decide (pixelDiff cp.1 cp.2 > 30))).length) ∧
    (∀ (sens : ℚ) (cur prev : Sample) (st : MotionState), st.prevFrame = some prev →
      (checkForMotion sens cur st).2.motionLevel
          = (changedCount cur prev : ℚ) / 2500 * 100 ∧
      ((checkForMotion sens cur st).1 = true ↔
        (changedCount cur prev : ℚ) / 2500 * 100 > sens / 10)) ∧
    (∀ (sens : ℚ) (cur : Sample) (st : MotionState), st.prevFrame = some cur → 0 ≤ sens →
      (checkForMotion sens cur st).1 = false ∧
      (checkForMotion sens cur st).2.motionLevel = 0 ∧
      (checkForMotion sens cur st).2.prevFrame = some cur) := by
  have hcc : ∀ cs ps : Sample, changedCount cs ps
      = ((cs.zip ps).filter (fun cp => decide (pixelDiff cp.1 cp.2 > 30))).length := by
    intro cs
    induction cs with
    | nil => intro ps; rfl
    | cons c cs ih =>
        intro ps
        cases ps with
        | nil => rfl
        | cons p ps =>
            by_cases hd : pixelDiff c p > 30
            · simp [changedCount, hd, ih, List.filter, List.zip]
              omega
            · simp [changedCount, hd, ih, List.filter, List.zip]
  refine ⟨hcc, ?_, ?_⟩
  · intro sens cur prev st hp
    constructor
    · simp [checkForMotion, hp]
      norm_num
    · simp [checkForMotion, hp]
      norm_num
  · intro sens cur st hp hs
    have hzero : (changedCount cur cur : ℚ) = 0 := by
      rw [changedCount_self]; norm_num
    refine ⟨?_, ?_, ?_⟩
    · simp [checkForMotion, hp, hzero]
      positivity
    · simp [checkForMotion, hp, hzero]
    · simp [checkForMotion, hp]

/-- Witness for C6 at a concrete identical frame pair with sensitivity 15. -/
theorem c6_witness :
    (checkForMotion 15 samplePrev
      { prevFrame := some samplePrev, motionLevel := 0 }).1 = false ∧
    (checkForMotion 15 samplePrev
      { prevFrame := some samplePrev, motionLevel := 0 }).2.motionLevel = 0 ∧
    (checkForMotion 15 samplePrev
      { prevFrame := some samplePrev, motionLevel := 0 }).2.prevFrame = some samplePrev :=
  c6_motion_formula.2.2 15 samplePrev
    { prevFrame := some samplePrev, motionLevel := 0 } rfl (by norm_num)

/-- Claim C7: an invocation of the capture handler while the busy flag is
set — whether from a timer tick or from the manual trigger — is dropped
entirely: the state is unchanged (no event, nothing queued), no alarm is
played, and the AnalysisClient is not invoked. -/
theorem c7_busy_guard (now : ℕ) (outcome : Except String AnalysisResult)
    (s : AppState) (fr : Bool) (hb : s.isAnalyzing = true) :
    handleImageCapture now outcome s = (s, 0, false) ∧
    triggerManualCapture fr now outcome s = (s, 0, false) := by
  have h1 : handleImageCapture now outcome s = (s, 0, false) := by
    simp [handleImageCapture, beginCapture, hb]
  refine ⟨h1, ?_⟩
  cases fr <;> simp [triggerManualCapture, h1]

/-- Witness for C7 at a concrete busy state. -/
theorem c7_witness :
    handleImageCapture 0 (Except.error "QUOTA_EXCEEDED") busyState
      = (busyState, 0, false) ∧
    triggerManualCapture true 0 (Except.error "QUOTA_EXCEEDED") busyState
      = (busyState, 0, false) :=
  c7_busy_guard 0 (Except.error "QUOTA_EXCEEDED") busyState true (by decide)

/-- Claim C8: a successful result is reliable iff `personDetected` holds and
`confidence > 45` strictly; reliable results carry status PersonDetected and
cause exactly one alert, non-reliable successes carry NoPerson and no alert,
description and confidence are carried through, and at confidence 46 versus
45 the boundary behaves as claimed. -/
theorem c8_reliability_threshold :
    (∀ (now : ℕ) (pd : Bool) (conf : ℚ) (desc : String),
      ∃ r, analyzeImageForPerson now (RemoteOutcome.parsed pd conf desc) = Except.ok r ∧
        (r.status = DetectionStatus.personDetected ↔ (pd = true ∧ conf > 45)) ∧
        (r.status = DetectionStatus.personDetected ∨ r.status = DetectionStatus.noPerson) ∧
        r.description = some desc ∧ r.confidence = some conf) ∧
    (∀ (now : ℕ) (pd : Bool) (conf : ℚ) (desc : String) (s : AppState),
      s.isAnalyzing = false →
      ((runCycle now (RemoteOutcome.parsed pd conf desc) s).2.1
          = if pd = true ∧ conf > 45 then 1 else 0) ∧
      ∃ r, analyzeImageForPerson now (RemoteOutcome.parsed pd conf desc) = Except.ok r ∧
        ((runCycle now (RemoteOutcome.parsed pd conf desc) s).1).history.head? = some r) ∧
    (((runCycle 0 (RemoteOutcome.parsed true 46 "figure") armedState).1).history.head?.map
        (fun e => e.status) = some DetectionStatus.personDetected ∧
     (runCycle 0 (RemoteOutcome.parsed true 46 "figure") armedState).2.1 = 1 ∧
     ((runCycle 0 (RemoteOutcome.parsed true 45 "figure") armedState).1).history.head?.map
        (fun e => e.status) = some DetectionStatus.noPerson ∧
     (runCycle 0 (RemoteOutcome.parsed true 45 "figure") armedState).2.1 = 0) := by
  refine ⟨?_, ?_, by decide⟩
  · intro now pd conf desc
    by_cases hc : conf > 45 <;> cases pd <;>
      simp [analyzeImageForPerson, hc]
  · intro now pd conf desc s hb
    constructor
    · by_cases hc : conf > 45 <;> cases pd <;>
        simp [runCycle, analyzeImageForPerson, handleImageCapture, beginCapture, hb,
          handleCompletion, finallyBlock, hc]
    · by_cases hc : conf > 45 <;> cases pd <;>
        simp [runCycle, analyzeImageForPerson, handleImageCapture, beginCapture, hb,
          handleCompletion, finallyBlock, hc, addToHistory_eq]

/-- Witness for C8's conditional conjunct at confidence 46. -/
theorem c8_witness :
    ((runCycle 3 (RemoteOutcome.parsed true 46 "p") armedState).2.1
        = if true = true ∧ (46 : ℚ) > 45 then 1 else 0) ∧
    ∃ r, analyzeImageForPerson 3 (RemoteOutcome.parsed true 46 "p") = Except.ok r ∧
      ((runCycle 3 (RemoteOutcome.parsed true 46 "p") armedState).1).history.head?
        = some r :=
  c8_reliability_threshold.2.1 3 true 46 "p" armedState (by decide)

/-- Claim C9: whenever no previous sample is stored — first call, or after a
camera restart clears it — the motion check reports motion and stores the
current sample for every input, and an active frame-processing pass with a
ready video therefore attempts analysis. -/
theorem c9_cold_start (sens : ℚ) (cur : Sample) (st : MotionState) (w h : ℕ)
    (hp : st.prevFrame = none) :
    checkForMotion sens cur st = (true, { st with prevFrame := some cur }) ∧
    (w ≠ 0 → h ≠ 0 →
      processFrame true w h sens cur st = (some true, { st with prevFrame := some cur })) ∧
    (∀ st' : MotionState, (startCamera st').prevFrame = none ∧
      (checkForMotion sens cur (startCamera st')).1 = true) := by
  refine ⟨?_, ?_, ?_⟩
  · simp [checkForMotion, hp]
  · intro hw hh
    simp [processFrame, hw, hh, checkForMotion, hp]
  · intro st'
    exact ⟨rfl, by simp [checkForMotion, startCamera]⟩

/-- Witness for C9 at a concrete empty motion state and frame. -/
theorem c9_witness :
    checkForMotion 15 samplePrev { prevFrame := none, motionLevel := 0 }
      = (true, { prevFrame := some samplePrev, motionLevel := 0 }) ∧
    processFrame true 1280 720 15 samplePrev { prevFrame := none, motionLevel := 0 }
      = (some true, { prevFrame := some samplePrev, motionLevel := 0 }) := by
  have h := c9_cold_start 15 samplePrev { prevFrame := none, motionLevel := 0 } 1280 720 rfl
  exact ⟨h.1, h.2.1 (by decide) (by decide)⟩

/-- Claim C10: the analysis client can only throw the single error
`QUOTA_EXCEEDED`, and does so exactly when the underlying failure message
contains `429` or `quota` case-insensitively; every other failure —
including an empty response — is converted inside the client into an
ordinary result with status ERROR, which the scheduler then processes
through its success path. -/
theorem c10_client_error_containment :
    (∀ (now : ℕ) (oc : RemoteOutcome) (e : String),
      analyzeImageForPerson now oc = Except.error e → e = "QUOTA_EXCEEDED") ∧
    (∀ (now : ℕ) (msg : String), quotaLike msg = true →
      analyzeImageForPerson now (RemoteOutcome.thrown msg)
        = Except.error "QUOTA_EXCEEDED") ∧
    (∀ (now : ℕ) (msg : String), quotaLike msg = false →
      ∃ r, analyzeImageForPerson now (RemoteOutcome.thrown msg) = Except.ok r ∧
        r.status = DetectionStatus.sensorError) ∧
    (∀ now : ℕ, ∃ r, analyzeImageForPerson now RemoteOutcome.emptyResponse = Except.ok r ∧
        r.status = DetectionStatus.sensorError) ∧
    (∀ (now : ℕ) (oc : RemoteOutcome) (s : AppState) (r : AnalysisResult),
      s.isAnalyzing = false → analyzeImageForPerson now oc = Except.ok r →
      runCycle now oc s
        = (finallyBlock s.currentInterval now
            { s with isAnalyzing := true
                     lastResult := some r
                     history := addToHistory r s.history
                     currentInterval := DEFAULT_INTERVAL },
           (if r.status = DetectionStatus.personDetected then 1 else 0), true)) := by
  refine ⟨?_, ?_, ?_, ?_, ?_⟩
  · intro now oc e h
    cases oc with
    | parsed pd conf desc => simp [analyzeImageForPerson] at h
    | emptyResponse =>
        have hqe : quotaLike "Resposta vazia da IA" = false := by decide
        simp [analyzeImageForPerson, geminiCatch, hqe] at h
    | thrown msg =>
        cases hq : quotaLike msg with
        | true =>
            simp [analyzeImageForPerson, geminiCatch, hq] at h
            exact h.symm
        | false =>
            simp [analyzeImageForPerson, geminiCatch, hq] at h
  · intro now msg hq
    simp [analyzeImageForPerson, geminiCatch, hq]
  · intro now msg hq
    simp [analyzeImageForPerson, geminiCatch, hq]
  · intro now
    have hqe : quotaLike "Resposta vazia da IA" = false := by decide
    simp [analyzeImageForPerson, geminiCatch, hqe]
  · intro now oc s r hb h
    simp [runCycle, handleImageCapture, beginCapture, hb, h, handleCompletion]

/-- Witness for C10 at a concrete quota-like and a concrete generic
failure message. -/
theorem c10_witness :
    analyzeImageForPerson 2 (RemoteOutcome.thrown "HTTP 429 Quota exceeded")
      = Except.error "QUOTA_EXCEEDED" ∧
    ∃ r, analyzeImageForPerson 2 (RemoteOutcome.thrown "socket closed") = Except.ok r ∧
      r.status = DetectionStatus.sensorError :=
  ⟨c10_client_error_containment.2.1 2 "HTTP 429 Quota exceeded" (by decide),
   c10_client_error_containment.2.2.1 2 "socket closed" (by decide)⟩

end PersonDetector
